import Mathlib

/-!
Verification of the DIM loadout-optimizer slot item filter (`filterItems` in
`src/unnamed/part_000`).  The filter consumes a per-bucket catalog of armor
items, user constraints (pinned items, excluded items, locked mods, a locked
exotic choice, energy assumptions) and a search predicate, and produces a
per-bucket sequence of items still eligible for optimization.

The Mod Assignment Oracle (`assignBucketSpecificMods`, imported from
`app/loadout/mod-assignment-utils`) is an external collaborator of the
filter; it is modelled as a function-valued field of the argument record,
inspected only through the emptiness of its `unassigned` result, exactly as
the source does.
-/

/-- An armor item as seen by the filter: the source reads `item.id` (instance
identity, compared against excluded items), `item.hash` (definition identity,
compared against the locked exotic hash) and `item.isExotic`.  Ids are
modelled as naturals; hashes as integers so that the negative sentinel of the
locked-exotic constraint lives in the same space. -/
structure DimItem where
  id : Nat
  hash : Int
  isExotic : Bool
deriving DecidableEq, Repr

/-- The plug of a mod definition; the source reads `mod.plug.plugCategoryHash`. -/
structure PlugDef where
  plugCategoryHash : Nat
deriving DecidableEq, Repr

/-- A pluggable inventory item definition (a locked mod). -/
structure PluggableInventoryItemDefinition where
  plug : PlugDef
deriving DecidableEq, Repr

/-- The fixed enumeration of lockable armor buckets. -/
inductive LockableBucketHash where
  | Helmet
  | Gauntlets
  | ChestArmor
  | LegArmor
  | ClassArmor
deriving DecidableEq, Repr

/-- The fixed iteration order of the buckets, as in `LockableBucketHashes`. -/
def LockableBucketHashes : List LockableBucketHash :=
  [LockableBucketHash.Helmet, LockableBucketHash.Gauntlets,
   LockableBucketHash.ChestArmor, LockableBucketHash.LegArmor,
   LockableBucketHash.ClassArmor]

/-- Modelled from the spec: each slot maps to exactly one mod-category
identifier (`bucketHashToPlugCategoryHash` lives in `app/loadout/mod-utils`,
which is not under `src/`).  Only distinctness of the values matters here. -/
def bucketHashToPlugCategoryHash : LockableBucketHash → Nat
  | LockableBucketHash.Helmet => 2912171003
  | LockableBucketHash.Gauntlets => 3422420680
  | LockableBucketHash.ChestArmor => 1526202480
  | LockableBucketHash.LegArmor => 2111701510
  | LockableBucketHash.ClassArmor => 912441879

/-- Modelled from the spec: the sentinel value of the Locked Exotic
constraint meaning "no exotic allowed at all" (`LOCKED_EXOTIC_NO_EXOTIC` is
declared in `./types`, which is not under `src/`); it is a value outside the
space of real item hashes. -/
def LOCKED_EXOTIC_NO_EXOTIC : Int := -1

/-- Modelled from the spec: the fixed minimum-item-energy floor passed to the
Mod Assignment Oracle (`MIN_LO_ITEM_ENERGY` is declared in `./types`, which
is not under `src/`).  The filter only forwards it. -/
def MIN_LO_ITEM_ENERGY : Nat := 7

/-- Opaque energy-locking policy, passed through to the oracle unchanged. -/
abbrev LockArmorEnergyType := Nat

/-- Opaque masterwork assumption, passed through to the oracle unchanged. -/
abbrev AssumeArmorMasterwork := Nat

/-- The argument record of the Mod Assignment Oracle call in the source. -/
structure AssignArgs where
  assumeArmorMasterwork : Option AssumeArmorMasterwork
  lockArmorEnergyType : Option LockArmorEnergyType
  minItemEnergy : Nat
  item : DimItem
  modsToAssign : List PluggableInventoryItemDefinition

/-- The result of the oracle; the filter inspects only `unassigned.length`. -/
structure AssignResult where
  unassigned : List PluggableInventoryItemDefinition

/-- The inputs of `filterItems`.  `defs` models the presence of the manifest
definitions (the source only tests its truthiness); `items` is the catalog,
absent entirely (`none`) or absent per bucket; `assignBucketSpecificMods` is
the external Mod Assignment Oracle. -/
structure FilterArgs where
  defs : Bool
  items : Option (LockableBucketHash → Option (List DimItem))
  pinnedItems : LockableBucketHash → Option DimItem
  excludedItems : LockableBucketHash → Option (List DimItem)
  lockedMods : List PluggableInventoryItemDefinition
  lockedExoticHash : Option Int
  lockArmorEnergyType : Option LockArmorEnergyType
  assumeArmorMasterwork : Option AssumeArmorMasterwork
  searchFilter : DimItem → Bool
  assignBucketSpecificMods : AssignArgs → AssignResult

/-- Lookup in `_.groupBy(lockedMods, mod => mod.plug.plugCategoryHash)` with
default `[]`: lodash `groupBy` preserves input order inside each group, so
the group of key `k` is the order-preserving filter by that key. -/
def lockedModsFor (lockedMods : List PluggableInventoryItemDefinition)
    (k : Nat) : List PluggableInventoryItemDefinition :=
  lockedMods.filter (fun m => m.plug.plugCategoryHash == k)

/-- Lines 65-78 of the source: the first-pass narrowing.  `exotics` is the
catalog items whose hash equals the locked exotic hash; a pinned item wins,
then a non-empty `exotics`, then the no-exotic sentinel strips exotic-flagged
items, else the catalog passes through unchanged. -/
def firstPassFilteredItems (pinnedItem : Option DimItem)
    (lockedExoticHash : Option Int) (bucketItems : List DimItem) :
    List DimItem :=
  let exotics := bucketItems.filter (fun item => some item.hash == lockedExoticHash)
  match pinnedItem with
  | some p => [p]
  | none =>
    if exotics.length != 0 then
      exotics
    else if lockedExoticHash == some LOCKED_EXOTIC_NO_EXOTIC then
      bucketItems.filter (fun i => !i.isExotic)
    else
      bucketItems

/-- Lines 86-96 of the source: the predicate of the exclusion +
mod-feasibility filter.  `excludedItems[bucket]?.some(...)` is `undefined`
(falsy) when the bucket has no excluded entry, and the `unassigned` list of the oracle
must be empty. -/
def itemKeptByExclusionAndMods (args : FilterArgs)
    (bucket : LockableBucketHash)
    (lockedModsForPlugCategoryHash : List PluggableInventoryItemDefinition)
    (item : DimItem) : Bool :=
  (match args.excludedItems bucket with
   | none => true
   | some excluded => !(excluded.any (fun e => item.id == e.id))) &&
  ((args.assignBucketSpecificMods
      { assumeArmorMasterwork := args.assumeArmorMasterwork,
        lockArmorEnergyType := args.lockArmorEnergyType,
        minItemEnergy := MIN_LO_ITEM_ENERGY,
        item := item,
        modsToAssign := lockedModsForPlugCategoryHash }).unassigned.length == 0)

/-- The step-4 result of the source (`excludedAndModsFilteredItems`): the
first-pass candidates filtered by exclusion and mod feasibility. -/
def excludedAndModsFilteredItems (args : FilterArgs)
    (bucket : LockableBucketHash) (bucketItems : List DimItem) :
    List DimItem :=
  (firstPassFilteredItems (args.pinnedItems bucket) args.lockedExoticHash
      bucketItems).filter
    (itemKeptByExclusionAndMods args bucket
      (lockedModsFor args.lockedMods (bucketHashToPlugCategoryHash bucket)))

/-- The step-5 candidate of the source (`searchFilteredItems`). -/
def searchFilteredItems (args : FilterArgs) (bucket : LockableBucketHash)
    (bucketItems : List DimItem) : List DimItem :=
  (excludedAndModsFilteredItems args bucket bucketItems).filter args.searchFilter

/-- `filterItems` of the source: the result record is initialized with every
bucket mapped to `[]`; when the catalog or the manifest definitions are
absent it is returned as-is; otherwise each bucket present in the catalog is
narrowed in three stages, with the search stage falling back to the step-4
result when it would empty the bucket. -/
def filterItems (args : FilterArgs) : LockableBucketHash → List DimItem :=
  fun bucket =>
    match args.items, args.defs with
    | some itemsMap, true =>
      (match itemsMap bucket with
       | none => []
       | some bucketItems =>
         let searched := searchFilteredItems args bucket bucketItems
         if searched.length != 0 then
           searched
         else
           excludedAndModsFilteredItems args bucket bucketItems)
    | _, _ => []

/-- A plain legendary helmet. -/
def itemA : DimItem := ⟨1, 10, false⟩

/-- A second plain legendary helmet. -/
def itemB : DimItem := ⟨2, 11, false⟩

/-- An exotic helmet. -/
def itemX1 : DimItem := ⟨3, 99, true⟩

/-- A second copy of the same exotic helmet (same hash, distinct id). -/
def itemX2 : DimItem := ⟨4, 99, true⟩

/-- A catalog holding `[itemA, itemB]` in the Helmet bucket only. -/
def helmetCatalog : LockableBucketHash → Option (List DimItem)
  | LockableBucketHash.Helmet => some [itemA, itemB]
  | _ => none

/-- A benign argument record: catalog for Helmet only, no constraints, an
always-satisfied oracle and an always-true search predicate. -/
def baseArgs : FilterArgs :=
  { defs := true,
    items := some helmetCatalog,
    pinnedItems := fun _ => none,
    excludedItems := fun _ => none,
    lockedMods := [],
    lockedExoticHash := none,
    lockArmorEnergyType := none,
    assumeArmorMasterwork := none,
    searchFilter := fun _ => true,
    assignBucketSpecificMods := fun _ => ⟨[]⟩ }

/-- `itemA` pinned in the Helmet bucket and simultaneously excluded there. -/
def pinExcludedArgs : FilterArgs :=
  { baseArgs with
    pinnedItems := fun b => match b with
      | LockableBucketHash.Helmet => some itemA
      | _ => none,
    excludedItems := fun b => match b with
      | LockableBucketHash.Helmet => some [itemA]
      | _ => none }

/-- `itemA` pinned in the Helmet bucket while the search predicate rejects
every item. -/
def pinSearchRejectArgs : FilterArgs :=
  { baseArgs with
    pinnedItems := fun b => match b with
      | LockableBucketHash.Helmet => some itemA
      | _ => none,
    searchFilter := fun _ => false }

/-- The degenerate input of claim C2: no catalog at all. -/
def noCatalogArgs : FilterArgs := { baseArgs with items := none }

/-- A search predicate rejecting every item, for the fallback of claim C3. -/
def searchRejectArgs : FilterArgs :=
  { baseArgs with searchFilter := fun _ => false }

/-- A locked mod that the oracle below reports as unassignable on `itemA`. -/
def modX : PluggableInventoryItemDefinition := ⟨⟨5⟩⟩

/-- An oracle reporting `modX` unassigned exactly on `itemA`. -/
def infeasibleArgs : FilterArgs :=
  { baseArgs with
    assignBucketSpecificMods := fun a =>
      ⟨if a.item.id == 1 then [modX] else []⟩ }

/-- A Helmet catalog with one legendary and two copies of one exotic. -/
def exoticCatalog : LockableBucketHash → Option (List DimItem)
  | LockableBucketHash.Helmet => some [itemA, itemX1, itemX2]
  | _ => none

/-- The Locked Exotic constraint naming the hash of `itemX1`/`itemX2`. -/
def exoticLockArgs : FilterArgs :=
  { baseArgs with items := some exoticCatalog, lockedExoticHash := some 99 }

/-- The "no exotic allowed" sentinel over a mixed catalog. -/
def noExoticArgs : FilterArgs :=
  { baseArgs with
    items := some exoticCatalog,
    lockedExoticHash := some LOCKED_EXOTIC_NO_EXOTIC }

/-- Exotic lock on hash 99 with the second copy excluded. -/
def exoticExcludeArgs : FilterArgs :=
  { baseArgs with
    items := some exoticCatalog,
    lockedExoticHash := some 99,
    excludedItems := fun b => match b with
      | LockableBucketHash.Helmet => some [itemX2]
      | _ => none }

/-- Exotic lock on hash 99 with both copies excluded. -/
def exoticAllExcludedArgs : FilterArgs :=
  { baseArgs with
    items := some exoticCatalog,
    lockedExoticHash := some 99,
    excludedItems := fun b => match b with
      | LockableBucketHash.Helmet => some [itemX1, itemX2]
      | _ => none }

/-- `itemA` pinned in the Gauntlets bucket, absent from the catalog. -/
def pinnedMissingBucketArgs : FilterArgs :=
  { baseArgs with
    pinnedItems := fun b => match b with
      | LockableBucketHash.Gauntlets => some itemA
      | _ => none }

/-! ### Helper lemmas, claim theorems, counterexample and witnesses -/

/-- When the catalog, manifest and bucket are all present, `filterItems`
reduces to the search stage with fallback over the step-4 result. -/
theorem filterItems_eq_of_present (args : FilterArgs)
    (itemsMap : LockableBucketHash → Option (List DimItem))
    (bucket : LockableBucketHash) (l : List DimItem)
    (hdefs : args.defs = true) (hitems : args.items = some itemsMap)
    (hslot : itemsMap bucket = some l) :
    filterItems args bucket =
      if (searchFilteredItems args bucket l).length != 0 then
        searchFilteredItems args bucket l
      else
        excludedAndModsFilteredItems args bucket l := by
  simp [filterItems, hitems, hdefs, hslot]

/-- Every item of the final output belongs to the step-4 result. -/
theorem mem_step4_of_mem_output (args : FilterArgs)
    (itemsMap : LockableBucketHash → Option (List DimItem))
    (bucket : LockableBucketHash) (l : List DimItem)
    (hdefs : args.defs = true) (hitems : args.items = some itemsMap)
    (hslot : itemsMap bucket = some l) :
    ∀ i ∈ filterItems args bucket, i ∈ excludedAndModsFilteredItems args bucket l := by
  intro i hi
  rw [filterItems_eq_of_present args itemsMap bucket l hdefs hitems hslot] at hi
  by_cases h : (searchFilteredItems args bucket l).length != 0
  · rw [if_pos h] at hi
    exact List.mem_of_mem_filter hi
  · rw [if_neg h] at hi
    exact hi

/-- Claim C2: the output mapping is total over the fixed bucket enumeration,
and an absent catalog or absent manifest definitions degrade every bucket to
the empty sequence without an error. -/
theorem filterItems_total_and_empty_when_inputs_missing (args : FilterArgs)
    (h : args.items = none ∨ args.defs = false) :
    (∀ b : LockableBucketHash, b ∈ LockableBucketHashes) ∧
    (∀ b : LockableBucketHash, filterItems args b = []) := by
  constructor
  · intro b
    cases b <;> simp [LockableBucketHashes]
  · intro b
    rcases h with h | h
    · simp [filterItems, h]
    · cases hi : args.items with
      | none => simp [filterItems, hi]
      | some m => simp [filterItems, hi, h]

/-- Claim C10: a bucket absent from a present catalog yields the empty
sequence even when a pinned item exists for that bucket. -/
theorem pinned_item_ignored_when_bucket_missing (args : FilterArgs)
    (itemsMap : LockableBucketHash → Option (List DimItem))
    (bucket : LockableBucketHash) (p : DimItem)
    (hdefs : args.defs = true) (hitems : args.items = some itemsMap)
    (hslot : itemsMap bucket = none)
    (hpin : args.pinnedItems bucket = some p) :
    filterItems args bucket = [] := by
  simp [filterItems, hitems, hdefs, hslot]

/-- Claim C4: an item for which the Mod Assignment Oracle, on the grouped
locked mods of the bucket, the energy assumptions and the fixed minimum
energy floor, reports one or more unassigned mods never appears in the final
output for that bucket. -/
theorem mod_infeasible_item_never_in_output (args : FilterArgs)
    (bucket : LockableBucketHash) (item : DimItem)
    (h : (args.assignBucketSpecificMods
        { assumeArmorMasterwork := args.assumeArmorMasterwork,
          lockArmorEnergyType := args.lockArmorEnergyType,
          minItemEnergy := MIN_LO_ITEM_ENERGY,
          item := item,
          modsToAssign := lockedModsFor args.lockedMods
            (bucketHashToPlugCategoryHash bucket) }).unassigned ≠ []) :
    item ∉ filterItems args bucket := by
  intro hmem
  cases hi : args.items with
  | none => simp [filterItems, hi] at hmem
  | some itemsMap =>
    cases hd : args.defs with
    | false => simp [filterItems, hi, hd] at hmem
    | true =>
      cases hs : itemsMap bucket with
      | none => simp [filterItems, hi, hd, hs] at hmem
      | some l =>
        have h4 := mem_step4_of_mem_output args itemsMap bucket l hd hi hs item hmem
        have hkept := List.of_mem_filter h4
        have h2 := (Bool.and_eq_true _ _).mp hkept |>.2
        have hlen : (args.assignBucketSpecificMods
            { assumeArmorMasterwork := args.assumeArmorMasterwork,
              lockArmorEnergyType := args.lockArmorEnergyType,
              minItemEnergy := MIN_LO_ITEM_ENERGY,
              item := item,
              modsToAssign := lockedModsFor args.lockedMods
                (bucketHashToPlugCategoryHash bucket) }).unassigned.length = 0 := by
          simpa using h2
        exact h (List.eq_nil_of_length_eq_zero hlen)

/-- Claim C1, counterexample: with `itemA` pinned in a catalog-present bucket
but also in the Excluded set of that bucket, the output is `[]`, not
`[itemA]` — step 4 is not bypassed for a pinned bucket. -/
theorem pin_not_absolute_counterexample :
    pinExcludedArgs.defs = true ∧
    pinExcludedArgs.items = some helmetCatalog ∧
    helmetCatalog LockableBucketHash.Helmet = some [itemA, itemB] ∧
    pinExcludedArgs.pinnedItems LockableBucketHash.Helmet = some itemA ∧
    filterItems pinExcludedArgs LockableBucketHash.Helmet ≠ [itemA] :=
  ⟨rfl, rfl, rfl, rfl, by decide⟩

/-- Claim C1, amended: if a bucket present in the catalog has a pinned item
P, and P survives step 4 (P is not in the Excluded set of the bucket and the
oracle reports zero unassigned mods for P), then the output for that bucket
is exactly `[P]`, regardless of the exotic lock and of the search predicate
(even one rejecting P, thanks to the search fallback). -/
theorem pin_yields_exactly_pin_when_it_survives_step4 (args : FilterArgs)
    (itemsMap : LockableBucketHash → Option (List DimItem))
    (bucket : LockableBucketHash) (l : List DimItem) (p : DimItem)
    (hdefs : args.defs = true) (hitems : args.items = some itemsMap)
    (hslot : itemsMap bucket = some l)
    (hpin : args.pinnedItems bucket = some p)
    (hkept : itemKeptByExclusionAndMods args bucket
      (lockedModsFor args.lockedMods (bucketHashToPlugCategoryHash bucket))
      p = true) :
    filterItems args bucket = [p] := by
  have hfp : firstPassFilteredItems (args.pinnedItems bucket)
      args.lockedExoticHash l = [p] := by
    simp [firstPassFilteredItems, hpin]
  have hex : excludedAndModsFilteredItems args bucket l = [p] := by
    simp [excludedAndModsFilteredItems, hfp, List.filter_cons, hkept]
  rw [filterItems_eq_of_present args itemsMap bucket l hdefs hitems hslot]
  rw [searchFilteredItems, hex]
  cases hs : args.searchFilter p
  · simp [List.filter_cons, hs]
  · simp [List.filter_cons, hs]

/-- Claim C3: when the search predicate keeps at least one item of the
step-4 result, the final output is exactly the predicate-filtered sequence;
when it eliminates every item of a non-empty step-4 result, the final output
is the step-4 result unchanged, never the empty sequence. -/
theorem search_narrowing_with_fallback (args : FilterArgs)
    (itemsMap : LockableBucketHash → Option (List DimItem))
    (bucket : LockableBucketHash) (l : List DimItem)
    (hdefs : args.defs = true) (hitems : args.items = some itemsMap)
    (hslot : itemsMap bucket = some l) :
    (searchFilteredItems args bucket l ≠ [] →
      filterItems args bucket = searchFilteredItems args bucket l) ∧
    (excludedAndModsFilteredItems args bucket l ≠ [] →
      searchFilteredItems args bucket l = [] →
      filterItems args bucket = excludedAndModsFilteredItems args bucket l ∧
      filterItems args bucket ≠ []) := by
  rw [filterItems_eq_of_present args itemsMap bucket l hdefs hitems hslot]
  constructor
  · intro hne
    rw [if_pos]
    simpa [List.length_eq_zero] using hne
  · intro h4 hs
    rw [if_neg]
    · exact ⟨rfl, h4⟩
    · simp [hs]

/-- Claim C5: with no pinned item, when the Locked Exotic constraint names a
specific identity and at least one catalog item of the bucket matches it,
the first-pass candidate set is exactly the order-preserving filter of the
catalog by that identity — every duplicate copy retained. -/
theorem locked_exotic_first_pass_keeps_all_copies (args : FilterArgs)
    (bucket : LockableBucketHash) (l : List DimItem) (hx : Int)
    (hpin : args.pinnedItems bucket = none)
    (hhash : args.lockedExoticHash = some hx)
    (hreal : hx ≠ LOCKED_EXOTIC_NO_EXOTIC)
    (hmatch : l.filter (fun item => some item.hash == args.lockedExoticHash) ≠ []) :
    firstPassFilteredItems (args.pinnedItems bucket) args.lockedExoticHash l =
      l.filter (fun item => some item.hash == args.lockedExoticHash) := by
  simp only [firstPassFilteredItems, hpin]
  rw [if_pos]
  simpa [List.length_eq_zero] using hmatch

/-- Claim C6: with no pinned item, the sentinel "no exotic allowed" and no
catalog item whose hash equals the sentinel value, the first-pass candidate
set is the catalog with every exotic-flagged item removed, and consequently
no exotic-flagged item appears in the final output of the bucket. -/
theorem no_exotic_sentinel_strips_exotics (args : FilterArgs)
    (itemsMap : LockableBucketHash → Option (List DimItem))
    (bucket : LockableBucketHash) (l : List DimItem)
    (hdefs : args.defs = true) (hitems : args.items = some itemsMap)
    (hslot : itemsMap bucket = some l)
    (hpin : args.pinnedItems bucket = none)
    (hhash : args.lockedExoticHash = some LOCKED_EXOTIC_NO_EXOTIC)
    (hnomatch : l.filter (fun item => some item.hash == args.lockedExoticHash) = []) :
    firstPassFilteredItems (args.pinnedItems bucket) args.lockedExoticHash l =
      l.filter (fun i => !i.isExotic) ∧
    ∀ i ∈ filterItems args bucket, i.isExotic = false := by
  have hfp : firstPassFilteredItems (args.pinnedItems bucket)
      args.lockedExoticHash l = l.filter (fun i => !i.isExotic) := by
    simp only [firstPassFilteredItems, hpin]
    rw [if_neg, if_pos]
    · simp [hhash]
    · simp [hnomatch]
  refine ⟨hfp, ?_⟩
  intro i hi
  have h4 := mem_step4_of_mem_output args itemsMap bucket l hdefs hitems hslot i hi
  rw [excludedAndModsFilteredItems, hfp] at h4
  have h1 := List.mem_of_mem_filter h4
  have h2 := List.of_mem_filter h1
  simpa using h2

/-- Shared helper: with no pin and a non-empty exotic match, the first pass
is the hash-matching filter of the catalog. -/
theorem firstPass_eq_exotics (pinnedItem : Option DimItem) (h : Option Int)
    (l : List DimItem) (hpin : pinnedItem = none)
    (hmatch : l.filter (fun item => some item.hash == h) ≠ []) :
    firstPassFilteredItems pinnedItem h l =
      l.filter (fun item => some item.hash == h) := by
  simp only [firstPassFilteredItems, hpin]
  rw [if_pos]
  simpa [List.length_eq_zero] using hmatch

/-- Claim C7: when the Locked Exotic matches exactly the two copies x1, x2 in
the bucket, x2 is excluded, both are mod-feasible, there is no pin and the
search predicate keeps x1, the final output is exactly `[x1]`. -/
theorem exclusion_prunes_exotic_duplicate (args : FilterArgs)
    (itemsMap : LockableBucketHash → Option (List DimItem))
    (bucket : LockableBucketHash) (l : List DimItem) (x1 x2 : DimItem)
    (exList : List DimItem)
    (hdefs : args.defs = true) (hitems : args.items = some itemsMap)
    (hslot : itemsMap bucket = some l)
    (hpin : args.pinnedItems bucket = none)
    (hmatch : l.filter (fun item => some item.hash == args.lockedExoticHash) = [x1, x2])
    (hexcl : args.excludedItems bucket = some exList)
    (hx2in : exList.any (fun e => x2.id == e.id) = true)
    (hx1out : exList.any (fun e => x1.id == e.id) = false)
    (hfeas1 : (args.assignBucketSpecificMods
        { assumeArmorMasterwork := args.assumeArmorMasterwork,
          lockArmorEnergyType := args.lockArmorEnergyType,
          minItemEnergy := MIN_LO_ITEM_ENERGY,
          item := x1,
          modsToAssign := lockedModsFor args.lockedMods
            (bucketHashToPlugCategoryHash bucket) }).unassigned = [])
    (hfeas2 : (args.assignBucketSpecificMods
        { assumeArmorMasterwork := args.assumeArmorMasterwork,
          lockArmorEnergyType := args.lockArmorEnergyType,
          minItemEnergy := MIN_LO_ITEM_ENERGY,
          item := x2,
          modsToAssign := lockedModsFor args.lockedMods
            (bucketHashToPlugCategoryHash bucket) }).unassigned = [])
    (hsearch : args.searchFilter x1 = true) :
    filterItems args bucket = [x1] := by
  have hfp := firstPass_eq_exotics (args.pinnedItems bucket) args.lockedExoticHash
    l hpin (by rw [hmatch]; simp)
  rw [hmatch] at hfp
  have hk1 : itemKeptByExclusionAndMods args bucket
      (lockedModsFor args.lockedMods (bucketHashToPlugCategoryHash bucket)) x1 = true := by
    rw [itemKeptByExclusionAndMods, hexcl]
    simp [hx1out, hfeas1]
  have hk2 : itemKeptByExclusionAndMods args bucket
      (lockedModsFor args.lockedMods (bucketHashToPlugCategoryHash bucket)) x2 = false := by
    rw [itemKeptByExclusionAndMods, hexcl]
    simp [hx2in]
  have hex : excludedAndModsFilteredItems args bucket l = [x1] := by
    rw [excludedAndModsFilteredItems, hfp]
    simp [List.filter_cons, hk1, hk2]
  rw [filterItems_eq_of_present args itemsMap bucket l hdefs hitems hslot]
  rw [searchFilteredItems, hex]
  simp [List.filter_cons, hsearch]

/-- Claim C8: without a pinned item, the final output is a subsequence of
the catalog of the bucket: every stage filters in place, without
reordering, duplication or re-sorting. -/
theorem output_is_subsequence_of_catalog (args : FilterArgs)
    (itemsMap : LockableBucketHash → Option (List DimItem))
    (bucket : LockableBucketHash) (l : List DimItem)
    (hdefs : args.defs = true) (hitems : args.items = some itemsMap)
    (hslot : itemsMap bucket = some l)
    (hpin : args.pinnedItems bucket = none) :
    (filterItems args bucket).Sublist l := by
  have hfp : (firstPassFilteredItems (args.pinnedItems bucket)
      args.lockedExoticHash l).Sublist l := by
    simp only [firstPassFilteredItems, hpin]
    by_cases h1 : ((l.filter (fun item =>
        some item.hash == args.lockedExoticHash)).length != 0) = true
    · rw [if_pos h1]
      exact List.filter_sublist l
    · rw [if_neg h1]
      by_cases h2 : (args.lockedExoticHash == some LOCKED_EXOTIC_NO_EXOTIC) = true
      · rw [if_pos h2]
        exact List.filter_sublist l
      · rw [if_neg h2]
  have hex : (excludedAndModsFilteredItems args bucket l).Sublist
      (firstPassFilteredItems (args.pinnedItems bucket) args.lockedExoticHash l) :=
    List.filter_sublist _
  rw [filterItems_eq_of_present args itemsMap bucket l hdefs hitems hslot]
  by_cases hs : ((searchFilteredItems args bucket l).length != 0) = true
  · rw [if_pos hs]
    exact ((List.filter_sublist _).trans hex).trans hfp
  · rw [if_neg hs]
    exact hex.trans hfp

/-- Claim C9: with no pin and a non-empty exotic match, if every matching
copy is rejected by the exclusion + mod-feasibility filter, the output is
empty — the algorithm never falls back to the non-matching catalog items. -/
theorem no_fallback_when_all_exotic_copies_removed (args : FilterArgs)
    (itemsMap : LockableBucketHash → Option (List DimItem))
    (bucket : LockableBucketHash) (l : List DimItem)
    (hdefs : args.defs = true) (hitems : args.items = some itemsMap)
    (hslot : itemsMap bucket = some l)
    (hpin : args.pinnedItems bucket = none)
    (hmatch : l.filter (fun item => some item.hash == args.lockedExoticHash) ≠ [])
    (hdropall : ∀ i ∈ l.filter (fun item => some item.hash == args.lockedExoticHash),
      itemKeptByExclusionAndMods args bucket
        (lockedModsFor args.lockedMods (bucketHashToPlugCategoryHash bucket))
        i = false) :
    filterItems args bucket = [] := by
  have hfp := firstPass_eq_exotics (args.pinnedItems bucket)
    args.lockedExoticHash l hpin hmatch
  have hex : excludedAndModsFilteredItems args bucket l = [] := by
    rw [excludedAndModsFilteredItems, hfp]
    rw [List.filter_eq_nil_iff]
    intro a ha
    simp [hdropall a ha]
  rw [filterItems_eq_of_present args itemsMap bucket l hdefs hitems hslot]
  rw [searchFilteredItems, hex]
  simp

theorem pin_yields_exactly_pin_witness :
    pinSearchRejectArgs.defs = true ∧
    pinSearchRejectArgs.items = some helmetCatalog ∧
    helmetCatalog LockableBucketHash.Helmet = some [itemA, itemB] ∧
    pinSearchRejectArgs.pinnedItems LockableBucketHash.Helmet = some itemA ∧
    itemKeptByExclusionAndMods pinSearchRejectArgs LockableBucketHash.Helmet
      (lockedModsFor pinSearchRejectArgs.lockedMods
        (bucketHashToPlugCategoryHash LockableBucketHash.Helmet)) itemA = true ∧
    filterItems pinSearchRejectArgs LockableBucketHash.Helmet = [itemA] :=
  ⟨rfl, rfl, rfl, rfl, by decide,
    pin_yields_exactly_pin_when_it_survives_step4 pinSearchRejectArgs
      helmetCatalog LockableBucketHash.Helmet [itemA, itemB] itemA
      rfl rfl rfl rfl (by decide)⟩

theorem filterItems_total_witness :
    (noCatalogArgs.items = none ∨ noCatalogArgs.defs = false) ∧
    LockableBucketHash.Helmet ∈ LockableBucketHashes ∧
    filterItems noCatalogArgs LockableBucketHash.Helmet = [] :=
  ⟨Or.inl rfl,
   (filterItems_total_and_empty_when_inputs_missing noCatalogArgs
     (Or.inl rfl)).1 LockableBucketHash.Helmet,
   (filterItems_total_and_empty_when_inputs_missing noCatalogArgs
     (Or.inl rfl)).2 LockableBucketHash.Helmet⟩

theorem search_fallback_witness :
    searchRejectArgs.defs = true ∧
    searchRejectArgs.items = some helmetCatalog ∧
    helmetCatalog LockableBucketHash.Helmet = some [itemA, itemB] ∧
    excludedAndModsFilteredItems searchRejectArgs
      LockableBucketHash.Helmet [itemA, itemB] ≠ [] ∧
    searchFilteredItems searchRejectArgs
      LockableBucketHash.Helmet [itemA, itemB] = [] ∧
    filterItems searchRejectArgs LockableBucketHash.Helmet =
      excludedAndModsFilteredItems searchRejectArgs
        LockableBucketHash.Helmet [itemA, itemB] ∧
    filterItems searchRejectArgs LockableBucketHash.Helmet ≠ [] :=
  ⟨rfl, rfl, rfl, by decide, by decide,
   ((search_narrowing_with_fallback searchRejectArgs helmetCatalog
      LockableBucketHash.Helmet [itemA, itemB] rfl rfl rfl).2
      (by decide) (by decide)).1,
   ((search_narrowing_with_fallback searchRejectArgs helmetCatalog
      LockableBucketHash.Helmet [itemA, itemB] rfl rfl rfl).2
      (by decide) (by decide)).2⟩

theorem mod_infeasible_witness :
    (infeasibleArgs.assignBucketSpecificMods
      { assumeArmorMasterwork := infeasibleArgs.assumeArmorMasterwork,
        lockArmorEnergyType := infeasibleArgs.lockArmorEnergyType,
        minItemEnergy := MIN_LO_ITEM_ENERGY,
        item := itemA,
        modsToAssign := lockedModsFor infeasibleArgs.lockedMods
          (bucketHashToPlugCategoryHash LockableBucketHash.Helmet) }).unassigned ≠ [] ∧
    itemA ∉ filterItems infeasibleArgs LockableBucketHash.Helmet :=
  ⟨by decide,
   mod_infeasible_item_never_in_output infeasibleArgs
     LockableBucketHash.Helmet itemA (by decide)⟩

theorem locked_exotic_copies_witness :
    exoticLockArgs.pinnedItems LockableBucketHash.Helmet = none ∧
    exoticLockArgs.lockedExoticHash = some 99 ∧
    (99 : Int) ≠ LOCKED_EXOTIC_NO_EXOTIC ∧
    [itemA, itemX1, itemX2].filter
      (fun item => some item.hash == exoticLockArgs.lockedExoticHash) ≠ [] ∧
    firstPassFilteredItems (exoticLockArgs.pinnedItems LockableBucketHash.Helmet)
      exoticLockArgs.lockedExoticHash [itemA, itemX1, itemX2] =
      [itemA, itemX1, itemX2].filter
        (fun item => some item.hash == exoticLockArgs.lockedExoticHash) :=
  ⟨rfl, rfl, by decide, by decide,
   locked_exotic_first_pass_keeps_all_copies exoticLockArgs
     LockableBucketHash.Helmet [itemA, itemX1, itemX2] 99
     rfl rfl (by decide) (by decide)⟩

theorem no_exotic_sentinel_witness :
    noExoticArgs.defs = true ∧
    noExoticArgs.items = some exoticCatalog ∧
    exoticCatalog LockableBucketHash.Helmet = some [itemA, itemX1, itemX2] ∧
    noExoticArgs.pinnedItems LockableBucketHash.Helmet = none ∧
    noExoticArgs.lockedExoticHash = some LOCKED_EXOTIC_NO_EXOTIC ∧
    [itemA, itemX1, itemX2].filter
      (fun item => some item.hash == noExoticArgs.lockedExoticHash) = [] ∧
    firstPassFilteredItems (noExoticArgs.pinnedItems LockableBucketHash.Helmet)
      noExoticArgs.lockedExoticHash [itemA, itemX1, itemX2] =
      [itemA, itemX1, itemX2].filter (fun i => !i.isExotic) ∧
    itemA.isExotic = false :=
  ⟨rfl, rfl, rfl, rfl, rfl, by decide,
   (no_exotic_sentinel_strips_exotics noExoticArgs exoticCatalog
     LockableBucketHash.Helmet [itemA, itemX1, itemX2]
     rfl rfl rfl rfl rfl (by decide)).1,
   (no_exotic_sentinel_strips_exotics noExoticArgs exoticCatalog
     LockableBucketHash.Helmet [itemA, itemX1, itemX2]
     rfl rfl rfl rfl rfl (by decide)).2 itemA (by decide)⟩

theorem exclusion_prunes_exotic_duplicate_witness :
    exoticExcludeArgs.defs = true ∧
    exoticExcludeArgs.items = some exoticCatalog ∧
    exoticCatalog LockableBucketHash.Helmet = some [itemA, itemX1, itemX2] ∧
    exoticExcludeArgs.pinnedItems LockableBucketHash.Helmet = none ∧
    [itemA, itemX1, itemX2].filter
      (fun item => some item.hash == exoticExcludeArgs.lockedExoticHash) =
      [itemX1, itemX2] ∧
    exoticExcludeArgs.excludedItems LockableBucketHash.Helmet = some [itemX2] ∧
    [itemX2].any (fun e => itemX2.id == e.id) = true ∧
    [itemX2].any (fun e => itemX1.id == e.id) = false ∧
    (exoticExcludeArgs.assignBucketSpecificMods
      { assumeArmorMasterwork := exoticExcludeArgs.assumeArmorMasterwork,
        lockArmorEnergyType := exoticExcludeArgs.lockArmorEnergyType,
        minItemEnergy := MIN_LO_ITEM_ENERGY,
        item := itemX1,
        modsToAssign := lockedModsFor exoticExcludeArgs.lockedMods
          (bucketHashToPlugCategoryHash LockableBucketHash.Helmet) }).unassigned = [] ∧
    exoticExcludeArgs.searchFilter itemX1 = true ∧
    filterItems exoticExcludeArgs LockableBucketHash.Helmet = [itemX1] :=
  ⟨rfl, rfl, rfl, rfl, by decide, rfl, by decide, by decide, rfl, rfl,
   exclusion_prunes_exotic_duplicate exoticExcludeArgs exoticCatalog
     LockableBucketHash.Helmet [itemA, itemX1, itemX2] itemX1 itemX2 [itemX2]
     rfl rfl rfl rfl (by decide) rfl (by decide) (by decide) rfl rfl rfl⟩

theorem output_subsequence_witness :
    baseArgs.defs = true ∧
    baseArgs.items = some helmetCatalog ∧
    helmetCatalog LockableBucketHash.Helmet = some [itemA, itemB] ∧
    baseArgs.pinnedItems LockableBucketHash.Helmet = none ∧
    (filterItems baseArgs LockableBucketHash.Helmet).Sublist [itemA, itemB] :=
  ⟨rfl, rfl, rfl, rfl,
   output_is_subsequence_of_catalog baseArgs helmetCatalog
     LockableBucketHash.Helmet [itemA, itemB] rfl rfl rfl rfl⟩

theorem no_fallback_witness :
    exoticAllExcludedArgs.defs = true ∧
    exoticAllExcludedArgs.items = some exoticCatalog ∧
    exoticCatalog LockableBucketHash.Helmet = some [itemA, itemX1, itemX2] ∧
    exoticAllExcludedArgs.pinnedItems LockableBucketHash.Helmet = none ∧
    [itemA, itemX1, itemX2].filter
      (fun item => some item.hash == exoticAllExcludedArgs.lockedExoticHash) ≠ [] ∧
    (∀ i ∈ [itemA, itemX1, itemX2].filter
        (fun item => some item.hash == exoticAllExcludedArgs.lockedExoticHash),
      itemKeptByExclusionAndMods exoticAllExcludedArgs LockableBucketHash.Helmet
        (lockedModsFor exoticAllExcludedArgs.lockedMods
          (bucketHashToPlugCategoryHash LockableBucketHash.Helmet)) i = false) ∧
    filterItems exoticAllExcludedArgs LockableBucketHash.Helmet = [] :=
  ⟨rfl, rfl, rfl, rfl, by decide, by decide,
   no_fallback_when_all_exotic_copies_removed exoticAllExcludedArgs
     exoticCatalog LockableBucketHash.Helmet [itemA, itemX1, itemX2]
     rfl rfl rfl rfl (by decide) (by decide)⟩

theorem pinned_item_ignored_witness :
    pinnedMissingBucketArgs.defs = true ∧
    pinnedMissingBucketArgs.items = some helmetCatalog ∧
    helmetCatalog LockableBucketHash.Gauntlets = none ∧
    pinnedMissingBucketArgs.pinnedItems LockableBucketHash.Gauntlets = some itemA ∧
    filterItems pinnedMissingBucketArgs LockableBucketHash.Gauntlets = [] :=
  ⟨rfl, rfl, rfl, rfl,
   pinned_item_ignored_when_bucket_missing pinnedMissingBucketArgs
     helmetCatalog LockableBucketHash.Gauntlets itemA rfl rfl rfl rfl⟩
